import Mathlib

/-!
Verification development for the notification-service repository.

The repository contains CDK deployment wiring (`app.py`,
`notification_service_stack.py`), an integration-test suite (`test_api.py`)
and a test client (`testutils/test_user.py`).  The service handlers
themselves are an external artifact, so the configuration/merge engine,
authorization guard, template resolver, fan-out processor and scheduler are
modelled from the specification, pinned at every point where the test
suite's assertions observe their behaviour.  The deployment wiring and the
queue client are embedded directly from the source.
-/

namespace NotifSvc

/-- Roles carried by users, from the data model (`role ∈ {user, super_admin}`). -/
inductive Role where
  | user
  | super_admin
deriving DecidableEq, Repr

/-- Delivery channels (`channel ∈ {email, slack, in_app}`). -/
inductive Channel where
  | email
  | slack
  | in_app
deriving DecidableEq, Repr

/-- Notification types enumerated by the test suite (alert, report, notification). -/
inductive NType where
  | alert
  | report
  | notif
deriving DecidableEq, Repr

/-- The wire spelling of a channel, as used in the composite ledger key. -/
def Channel.wire : Channel → String
  | .email => "email"
  | .slack => "slack"
  | .in_app => "in_app"

/-- The wire spelling of a notification type. -/
def NType.wire : NType → String
  | .alert => "alert"
  | .report => "report"
  | .notif => "notification"

/-! ## Queue client (`testutils/test_user.py`, `send_notification_to_queue`) -/

/-- A JSON-like value, enough to describe the queue message body built by
`send_notification_to_queue`. -/
inductive JVal where
  | s (v : String)
  | arr (vs : List String)
  | obj (fields : List (String × String))
deriving DecidableEq, Repr

/-- The `recipients` argument of `send_notification_to_queue`: Python accepts
either a list or a single scalar value. -/
inductive RecipientsArg where
  | one (r : String)
  | many (rs : List String)
deriving DecidableEq, Repr

/-- `recipients if isinstance(recipients, list) else [recipients]`
(test_user.py line 251). -/
def toRecipientsList : RecipientsArg → List String
  | .one r => [r]
  | .many rs => rs

/-- The `message_body` dict built by `send_notification_to_queue`
(test_user.py lines 245-253): `variables` defaults to the empty dict when
`None` is passed, `recipients` is wrapped into a list when not a list, and
the dict holds exactly the keys `id`, `type`, `recipients`, `variables` in
insertion order. -/
def messageBody (id ntype : String) (recips : RecipientsArg)
    (vars : Option (List (String × String))) : List (String × JVal) :=
  [ ("id", JVal.s id)
  , ("type", JVal.s ntype)
  , ("recipients", JVal.arr (toRecipientsList recips))
  , ("variables", JVal.obj (vars.getD [])) ]

/-- Key lookup in an association list of JSON object fields. -/
def jLookup (k : String) : List (String × JVal) → Option JVal
  | [] => none
  | (k', v) :: rest => if k' = k then some v else jLookup k rest

/-! ## Deployment wiring (`notification_service_stack.py`, `app.py`)

The stack constructor is modelled as a sequence of steps over a state that
records which `self.`-attributes have been assigned; referencing a
module-level name that was never imported raises a `NameError`, reading an
attribute that was never assigned raises an `AttributeError`, exactly as in
Python. -/

/-- Exceptions the stack constructor can raise. -/
inductive PyExc where
  | nameError (n : String)
  | attrError (n : String)
deriving DecidableEq, Repr

/-- Module-level names bound in `notification_service_stack.py`: the
`aws_cdk` import list (lines 1-13), `Construct`, `os`, `time`, and the class
itself.  `sqs` is absent: `aws_sqs` is never imported. -/
def moduleNames : List String :=
  [ "Stack", "CfnOutput", "Duration", "RemovalPolicy", "dynamodb", "_lambda"
  , "lambda_event_sources", "apigateway", "cognito", "iam", "logs"
  , "Construct", "os", "time", "NotificationServiceStack" ]

/-- Instance state of the stack under construction: the attribute names
assigned so far. -/
structure StackState where
  attrs : List String
deriving DecidableEq, Repr

/-- Evaluate a module-level name: `NameError` if it was never imported. -/
def useName (n : String) : Except PyExc Unit :=
  if moduleNames.contains n then .ok () else .error (.nameError n)

/-- Read `self.<n>`: `AttributeError` if never assigned. -/
def getAttr (st : StackState) (n : String) : Except PyExc Unit :=
  if st.attrs.contains n then .ok () else .error (.attrError n)

/-- Assign a batch of `self.<n>` attributes. -/
def setAttrs (st : StackState) (ns : List String) : StackState :=
  ⟨ns ++ st.attrs⟩

/-- Attributes assigned by `_create_dynamodb_tables` (lines 43-114). -/
def tableAttrs : List String :=
  ["users_table", "templates_table", "preferences_table", "config_table"]

/-- Attributes assigned by `_create_cognito_user_pool` (lines 116-148). -/
def cognitoAttrs : List String := ["user_pool", "user_pool_client"]

/-- Attributes assigned by `_create_sqs_queue` (lines 150-169), were it to run. -/
def sqsAttrs : List String := ["dlq", "notification_queue"]

/-- Attributes assigned by `_create_lambda_functions` (lines 171-290). -/
def lambdaAttrs : List String :=
  [ "user_handler", "template_handler", "preference_handler"
  , "config_handler", "processor_handler" ]

/-- Attributes assigned by `_create_api_gateway` (lines 292-396). -/
def apiAttrs : List String := ["authorizer", "api"]

/-- `_create_dynamodb_tables`: uses `dynamodb` and `RemovalPolicy`, assigns
the four table attributes. -/
def createDynamodbTables (st : StackState) : Except PyExc StackState := do
  useName "dynamodb"
  useName "RemovalPolicy"
  .ok (setAttrs st tableAttrs)

/-- `_create_cognito_user_pool`: uses `cognito`, `Duration`,
`RemovalPolicy`, assigns the user pool attributes. -/
def createCognitoUserPool (st : StackState) : Except PyExc StackState := do
  useName "cognito"
  useName "Duration"
  useName "RemovalPolicy"
  .ok (setAttrs st cognitoAttrs)

/-- `_create_sqs_queue`: its first statement (line 154) evaluates
`sqs.Queue`, so the name `sqs` is resolved before anything else. -/
def createSqsQueue (st : StackState) : Except PyExc StackState := do
  useName "sqs"
  useName "Duration"
  .ok (setAttrs st sqsAttrs)

/-- `_create_lambda_functions`: the `lambda_environment` dict (lines
175-185) reads the table attributes, `self.notification_queue`,
`self.notification_topic` and `self.user_pool` in source order, before any
Lambda is created. -/
def createLambdaFunctions (st : StackState) : Except PyExc StackState := do
  getAttr st "users_table"
  getAttr st "templates_table"
  getAttr st "preferences_table"
  getAttr st "config_table"
  getAttr st "notification_queue"
  getAttr st "notification_topic"
  getAttr st "user_pool"
  useName "iam"
  useName "_lambda"
  useName "logs"
  useName "lambda_event_sources"
  .ok (setAttrs st lambdaAttrs)

/-- `_create_api_gateway`: uses `apigateway`, reads the user pool and the
handler attributes, assigns the authorizer and the API. -/
def createApiGateway (st : StackState) : Except PyExc StackState := do
  useName "apigateway"
  getAttr st "user_pool"
  getAttr st "user_handler"
  getAttr st "template_handler"
  getAttr st "preference_handler"
  getAttr st "config_handler"
  .ok (setAttrs st apiAttrs)

/-- `_create_outputs`: uses `CfnOutput`, reads output attributes, assigns
nothing. -/
def createOutputs (st : StackState) : Except PyExc StackState := do
  useName "CfnOutput"
  getAttr st "api"
  getAttr st "user_pool"
  getAttr st "user_pool_client"
  getAttr st "notification_queue"
  .ok st

/-- Every attribute any constructor method ever assigns, plus
`environment_name` assigned directly in `__init__` (line 23).
`notification_topic` is not among them. -/
def allAssignedAttrs : List String :=
  "environment_name" :: (tableAttrs ++ cognitoAttrs ++ sqsAttrs ++ lambdaAttrs ++ apiAttrs)

/-- `NotificationServiceStack.__init__` as invoked by `app.py` (lines
14-19): assigns `environment_name`, then runs the six `_create_*` methods in
order.  The `account`/`region` environment inputs are threaded through as
`app.py` does but influence nothing. -/
def initStack (_account : Option String) (_region : String) (_environmentName : String) :
    Except PyExc StackState := do
  let st : StackState := ⟨["environment_name"]⟩
  let st ← createDynamodbTables st
  let st ← createCognitoUserPool st
  let st ← createSqsQueue st
  let st ← createLambdaFunctions st
  let st ← createApiGateway st
  let st ← createOutputs st
  .ok st

/-- The instance state `_create_lambda_functions` would see had
`_create_sqs_queue` completed: tables, cognito and queue attributes
assigned, `notification_topic` still never assigned. -/
def stateAfterQueues : StackState :=
  setAttrs (setAttrs (setAttrs ⟨["environment_name"]⟩ tableAttrs) cognitoAttrs) sqsAttrs

/-! ## Template rendering (§4.3 of the spec)

Modelled from the spec: the renderer scans the template's content, replacing
every `\x7b\x7bname\x7d\x7d` placeholder with `variables[name]` by plain
string replacement; placeholders with no matching variable are left
verbatim.  The handler code implementing this is not under `src/`; the
model reproduces the rendered contents asserted by
`test_notification_queue_publishing`. -/

/-- Look up a variable by name (name given as a character list). -/
def findVar (vars : List (String × String)) (name : List Char) : Option String :=
  match vars with
  | [] => none
  | (k, v) :: rest => if k.data = name then some v else findVar rest name

/-- Split a character stream at the first closing `\x7d\x7d`, returning the
characters before it and the remainder after it. -/
def splitAtClose : List Char → Option (List Char × List Char)
  | [] => none
  | '\x7d' :: '\x7d' :: rest => some ([], rest)
  | c :: rest =>
    match splitAtClose rest with
    | some (n, r) => some (c :: n, r)
    | none => none

/-- One fuelled pass of the placeholder scanner; each step consumes at
least one input character, so fuel equal to the input length suffices. -/
def renderAux : Nat → List Char → List (String × String) → List Char
  | 0, cs, _ => cs
  | fuel + 1, cs, vars =>
    match cs with
    | [] => []
    | '\x7b' :: '\x7b' :: rest =>
      match splitAtClose rest with
      | some (name, rest') =>
        match findVar vars name with
        | some v => v.data ++ renderAux fuel rest' vars
        | none => '\x7b' :: '\x7b' :: (name ++ '\x7d' :: '\x7d' :: renderAux fuel rest' vars)
      | none => cs
    | c :: rest => c :: renderAux fuel rest vars

/-- Modelled from the spec: substitute every `\x7b\x7bname\x7d\x7d`
placeholder with the corresponding variable value, leaving unresolved
placeholders verbatim (§4.3 rendering). -/
def render (content : String) (vars : List (String × String)) : String :=
  ⟨renderAux content.data.length content.data vars⟩

/-! ## Email-content canonicalisation

The ledger assertions in `test_notification_queue_publishing` (lines
737-739) show that for the email channel the stored content is the
template's JSON object re-serialised with keys sorted and whitespace
dropped, not the raw substituted string.  The model captures that step with
a flat JSON-object parser and a sorted compact serialiser. -/

/-- Drop leading JSON whitespace. -/
def skipWs : List Char → List Char
  | ' ' :: rest => skipWs rest
  | '\t' :: rest => skipWs rest
  | '\n' :: rest => skipWs rest
  | '\r' :: rest => skipWs rest
  | cs => cs

/-- Read a JSON string body (no escape handling) after its opening quote:
the characters up to the closing quote, and the remainder. -/
def readStr : List Char → Option (List Char × List Char)
  | [] => none
  | '"' :: rest => some ([], rest)
  | c :: rest =>
    match readStr rest with
    | some (s, r) => some (c :: s, r)
    | none => none

/-- Parse the members of a flat string-to-string JSON object, after the
opening brace; fuelled by the input length. -/
def parsePairs : Nat → List Char → Option (List (List Char × List Char))
  | 0, _ => none
  | fuel + 1, cs =>
    match skipWs cs with
    | '"' :: cs1 =>
      match readStr cs1 with
      | some (key, cs2) =>
        match skipWs cs2 with
        | ':' :: cs3 =>
          match skipWs cs3 with
          | '"' :: cs4 =>
            match readStr cs4 with
            | some (val, cs5) =>
              match skipWs cs5 with
              | '\x7d' :: cs6 => if (skipWs cs6).isEmpty then some [(key, val)] else none
              | ',' :: cs6 =>
                match parsePairs fuel cs6 with
                | some kvs => some ((key, val) :: kvs)
                | none => none
              | _ => none
            | none => none
          | _ => none
        | _ => none
      | none => none
    | _ => none

/-- Parse a whole flat string-to-string JSON object literal. -/
def parseFlat (cs : List Char) : Option (List (List Char × List Char)) :=
  match skipWs cs with
  | '\x7b' :: rest => parsePairs rest.length rest
  | _ => none

/-- Lexicographic comparison of character lists by code point. -/
def keyLe : List Char → List Char → Bool
  | [], _ => true
  | _ :: _, [] => false
  | a :: as, b :: bs =>
    if a.toNat < b.toNat then true
    else if b.toNat < a.toNat then false
    else keyLe as bs

/-- Insert a key-value pair into a key-sorted list. -/
def insertKV (kv : List Char × List Char) : List (List Char × List Char) → List (List Char × List Char)
  | [] => [kv]
  | kv' :: rest => if keyLe kv.1 kv'.1 then kv :: kv' :: rest else kv' :: insertKV kv rest

/-- Sort object members by key (insertion sort), as Go's JSON marshaller does. -/
def sortKV : List (List Char × List Char) → List (List Char × List Char)
  | [] => []
  | kv :: rest => insertKV kv (sortKV rest)

/-- Serialise one member as `"key":"value"`. -/
def serializeKV (kv : List Char × List Char) : List Char :=
  '"' :: kv.1 ++ '"' :: ':' :: '"' :: kv.2 ++ ['"']

/-- Serialise members separated by commas. -/
def serializeMembers : List (List Char × List Char) → List Char
  | [] => []
  | [kv] => serializeKV kv
  | kv :: rest => serializeKV kv ++ ',' :: serializeMembers rest

/-- Compact serialisation of a flat JSON object with keys sorted. -/
def serializeFlat (kvs : List (List Char × List Char)) : List Char :=
  '\x7b' :: serializeMembers (sortKV kvs) ++ ['\x7d']

/-- Modelled from the observed ledger contents: on the email channel the
rendered string (a JSON object literal) is parsed and re-serialised compact
with keys sorted before being stored; other channels store the rendered
string as-is (test_api.py lines 729-743). -/
def channelContent (c : Channel) (rendered : String) : String :=
  match c with
  | .email =>
    match parseFlat rendered.data with
    | some kvs => ⟨serializeFlat kvs⟩
    | none => rendered
  | _ => rendered

/-! ## Authorization guard (§4.1)

Modelled from the spec: `super_admin` may act on any target context; a
non-admin may only act on a target equal to their own `userId`, where an
empty target context means "my own context"; listing operations are
`super_admin`-only.  The guard is pure. -/

/-- An authenticated actor: subject id from the bearer token plus role. -/
structure Actor where
  userId : String
  role : Role
deriving DecidableEq, Repr

/-- Resolve a request's target context: the empty string means the actor's
own context. -/
def resolveCtx (a : Actor) (ctx : String) : String :=
  if ctx = "" then a.userId else ctx

/-- Modelled from the spec: the Authorization Guard's decision for a
non-listing operation on an already-resolved target context. -/
def authorize (a : Actor) (target : String) : Bool :=
  match a.role with
  | .super_admin => true
  | .user => target = a.userId

/-- Modelled from the spec: listing operations (enumerate all users,
preferences or configs) are allowed only for `super_admin`. -/
def authorizeList (a : Actor) : Bool :=
  a.role = .super_admin

/-! ## Store adapter: association lists keyed by context -/

/-- Point lookup by key. -/
def lookupCtx {α : Type} (store : List (String × α)) (k : String) : Option α :=
  match store with
  | [] => none
  | (k', v) :: rest => if k' = k then some v else lookupCtx rest k

/-- Replace the value at a key. -/
def replaceCtx {α : Type} (store : List (String × α)) (k : String) (v : α) :
    List (String × α) :=
  store.map (fun p => if p.1 = k then (k, v) else p)

/-- Remove a key. -/
def removeCtx {α : Type} (store : List (String × α)) (k : String) :
    List (String × α) :=
  store.filter (fun p => p.1 ≠ k)

/-- Response outcomes, mirroring the HTTP status semantics of §6: 200 ok,
201 created, 400 validation/conflict, 403 forbidden, 404 not found. -/
inductive Resp (α : Type) where
  | ok (v : α)
  | created (v : α)
  | bad
  | forbidden
  | notFound
deriving DecidableEq, Repr

/-- The HTTP status code of an outcome. -/
def Resp.code {α : Type} : Resp α → Nat
  | .ok _ => 200
  | .created _ => 201
  | .bad => 400
  | .forbidden => 403
  | .notFound => 404

/-! ## SystemConfig records and the context merge engine (§4.2)

Modelled from the spec, pinned by the assertions of
`test_system_config_positive`, `test_system_config_permission_validation`,
`test_system_config_user_permission_merge` and
`test_system_config_super_admin_global_replacement`. -/

/-- Per-channel email settings; every field optional, as in the payloads. -/
structure EmailCfg where
  fromAddress : Option String
  replyToAddress : Option String
  enabled : Option Bool
deriving DecidableEq, Repr

/-- Per-channel slack settings. -/
structure SlackCfg where
  webhookUrl : Option String
  enabled : Option Bool
deriving DecidableEq, Repr

/-- Per-channel in-app settings. -/
structure InAppCfg where
  platformAppIds : Option (List String)
  enabled : Option Bool
deriving DecidableEq, Repr

/-- A SystemConfig `config` object: each channel section optional. -/
structure SysConfig where
  email : Option EmailCfg
  slack : Option SlackCfg
  inApp : Option InAppCfg
deriving DecidableEq, Repr

/-- A stored SystemConfig record. -/
structure SysConfigRecord where
  context : String
  config : SysConfig
  description : String
deriving DecidableEq, Repr

/-- First-some choice between an update field and a stored field. -/
def oget {α : Type} (n o : Option α) : Option α :=
  match n with
  | some v => some v
  | none => o

/-- Field-level merge of email settings: fields present in the update
replace, absent fields are preserved. -/
def mergeEmail (o n : EmailCfg) : EmailCfg :=
  ⟨oget n.fromAddress o.fromAddress, oget n.replyToAddress o.replyToAddress,
   oget n.enabled o.enabled⟩

/-- Field-level merge of slack settings. -/
def mergeSlack (o n : SlackCfg) : SlackCfg :=
  ⟨oget n.webhookUrl o.webhookUrl, oget n.enabled o.enabled⟩

/-- Field-level merge of in-app settings. -/
def mergeInApp (o n : InAppCfg) : InAppCfg :=
  ⟨oget n.platformAppIds o.platformAppIds, oget n.enabled o.enabled⟩

/-- Merge one optional channel section: a section absent from the update is
preserved whole; a present section merges field by field. -/
def mergeChan {α : Type} (m : α → α → α) (o n : Option α) : Option α :=
  match n with
  | none => o
  | some nc =>
    match o with
    | none => some nc
    | some oc => some (m oc nc)

/-- Modelled from the spec: partial merge of a user-scoped config update
over the stored config (update fields replace, omitted fields are
preserved), per §4.2 and test_api.py lines 389-407 and 537-552. -/
def mergeConfig (old new : SysConfig) : SysConfig :=
  ⟨mergeChan mergeEmail old.email new.email,
   mergeChan mergeSlack old.slack new.slack,
   mergeChan mergeInApp old.inApp new.inApp⟩

/-- Does a config payload carry the admin-owned email address fields? -/
def cfgHasEmailAddrs (c : SysConfig) : Bool :=
  (c.email.map (fun e => e.fromAddress.isSome || e.replyToAddress.isSome)).getD false

/-- Does a config payload carry the user-owned delivery-target fields
(`slack.webhookUrl`, `inApp.platformAppIds`)? -/
def cfgHasUserOwned (c : SysConfig) : Bool :=
  ((c.slack.map (fun s => s.webhookUrl.isSome)).getD false)
    || ((c.inApp.map (fun i => i.platformAppIds.isSome)).getD false)

/-- Modelled from the spec, pinned by the tests: a non-admin writer may not
set `email.fromAddress`/`email.replyToAddress` (test_api.py line 482 gives
403), but may set `slack.webhookUrl` and `inApp.platformAppIds` in their own
context (lines 372-380 give 201, §4.2 calls those fields user-owned); an
admin writing the global `"*"` context may not set `slack.webhookUrl` or
`inApp.platformAppIds` (lines 492-504 give 403) but may set the email
address fields (line 424 gives 201). -/
def configWriteForbidden (role : Role) (target : String) (cfg : SysConfig) : Bool :=
  match role with
  | .user => cfgHasEmailAddrs cfg
  | .super_admin => if target = "*" then cfgHasUserOwned cfg else false

/-- Store for SystemConfig records, keyed by context. -/
abbrev ConfigStore : Type := List (String × SysConfigRecord)

/-- Modelled from the spec: SystemConfig create — authorize, require a
config payload, enforce field-level write permissions, reject a duplicate
context with a conflict (400), else store `create-if-absent`. -/
def createSystemConfig (a : Actor) (ctxArg : String) (cfg? : Option SysConfig)
    (desc : String) (store : ConfigStore) : Resp SysConfigRecord × ConfigStore :=
  let target := resolveCtx a ctxArg
  if authorize a target then
    match cfg? with
    | none => (.bad, store)
    | some cfg =>
      if configWriteForbidden a.role target cfg then (.forbidden, store)
      else
        match lookupCtx store target with
        | some _ => (.bad, store)
        | none =>
          let r : SysConfigRecord := ⟨target, cfg, desc⟩
          (.created r, (target, r) :: store)
  else (.forbidden, store)

/-- Modelled from the spec: SystemConfig get. -/
def getSystemConfig (a : Actor) (ctxArg : String) (store : ConfigStore) :
    Resp SysConfigRecord :=
  let target := resolveCtx a ctxArg
  if authorize a target then
    match lookupCtx store target with
    | some r => .ok r
    | none => .notFound
  else .forbidden

/-- Modelled from the spec: SystemConfig update — authorize, require some
field, enforce field-level permissions, 404 when absent; a user-scoped
update partially merges into the stored config while an update of the
global `"*"` context fully replaces the config object (§4.2, design note
`MergeStrategy`). -/
def updateSystemConfig (a : Actor) (ctxArg : String) (cfg? : Option SysConfig)
    (desc? : Option String) (store : ConfigStore) :
    Resp SysConfigRecord × ConfigStore :=
  let target := resolveCtx a ctxArg
  if authorize a target then
    if cfg?.isNone && desc?.isNone then (.bad, store)
    else if (cfg?.map (configWriteForbidden a.role target)).getD false then
      (.forbidden, store)
    else
      match lookupCtx store target with
      | none => (.notFound, store)
      | some old =>
        let newCfg :=
          match cfg? with
          | none => old.config
          | some p => if target = "*" then p else mergeConfig old.config p
        let r : SysConfigRecord := ⟨target, newCfg, desc?.getD old.description⟩
        (.ok r, replaceCtx store target r)
  else (.forbidden, store)

/-- Modelled from the spec: SystemConfig delete — authorize, 404 when
absent, else remove. -/
def deleteSystemConfig (a : Actor) (ctxArg : String) (store : ConfigStore) :
    Resp SysConfigRecord × ConfigStore :=
  let target := resolveCtx a ctxArg
  if authorize a target then
    match lookupCtx store target with
    | none => (.notFound, store)
    | some r => (.ok r, removeCtx store target)
  else (.forbidden, store)

/-- Modelled from the spec: listing all SystemConfig records is
super_admin-only. -/
def listSystemConfig (a : Actor) (store : ConfigStore) : Resp (List SysConfigRecord) :=
  if authorizeList a then .ok (store.map (fun p => p.2)) else .forbidden

/-! ## Preference records (§4.2 write side, data model §3) -/

/-- One notification type's preference: its channel set and enabled flag. -/
structure PrefEntry where
  channels : List Channel
  enabled : Bool
deriving DecidableEq, Repr

/-- A stored Preference record, keyed by context. -/
structure PrefRecord where
  context : String
  preferences : List (NType × PrefEntry)
  timezone : Option String
  language : Option String
deriving DecidableEq, Repr

/-- Store for Preference records, keyed by context. -/
abbrev PrefStore : Type := List (String × PrefRecord)

/-- Lookup of a type's preference entry in a preferences mapping. -/
def lookupType (prefs : List (NType × PrefEntry)) (t : NType) : Option PrefEntry :=
  match prefs with
  | [] => none
  | (t', e) :: rest => if t' = t then some e else lookupType rest t

/-- Modelled from the spec: Preference create — authorize, require a
preferences payload (test_api.py line 270 gives 400 without one), reject a
duplicate context with a conflict (400), else store. -/
def createUserPreferences (a : Actor) (ctxArg : String)
    (prefs? : Option (List (NType × PrefEntry))) (tz? lang? : Option String)
    (store : PrefStore) : Resp PrefRecord × PrefStore :=
  let target := resolveCtx a ctxArg
  if authorize a target then
    match prefs? with
    | none => (.bad, store)
    | some prefs =>
      match lookupCtx store target with
      | some _ => (.bad, store)
      | none =>
        let r : PrefRecord := ⟨target, prefs, tz?, lang?⟩
        (.created r, (target, r) :: store)
  else (.forbidden, store)

/-- Modelled from the spec: Preference get. -/
def getUserPreferences (a : Actor) (ctxArg : String) (store : PrefStore) :
    Resp PrefRecord :=
  let target := resolveCtx a ctxArg
  if authorize a target then
    match lookupCtx store target with
    | some r => .ok r
    | none => .notFound
  else .forbidden

/-- Modelled from the spec: Preference update — authorize, require at least
one field (test_api.py line 339 gives 400 with none), 404 when absent;
present fields replace, absent fields are preserved (line 208: updating only
the timezone preserves the language). -/
def updateUserPreferences (a : Actor) (ctxArg : String)
    (prefs? : Option (List (NType × PrefEntry))) (tz? lang? : Option String)
    (store : PrefStore) : Resp PrefRecord × PrefStore :=
  let target := resolveCtx a ctxArg
  if authorize a target then
    if prefs?.isNone && tz?.isNone && lang?.isNone then (.bad, store)
    else
      match lookupCtx store target with
      | none => (.notFound, store)
      | some old =>
        let r : PrefRecord :=
          ⟨target, prefs?.getD old.preferences, oget tz? old.timezone,
           oget lang? old.language⟩
        (.ok r, replaceCtx store target r)
  else (.forbidden, store)

/-- Modelled from the spec: Preference delete — authorize, 404 when absent,
else remove. -/
def deleteUserPreferences (a : Actor) (ctxArg : String) (store : PrefStore) :
    Resp PrefRecord × PrefStore :=
  let target := resolveCtx a ctxArg
  if authorize a target then
    match lookupCtx store target with
    | none => (.notFound, store)
    | some r => (.ok r, removeCtx store target)
  else (.forbidden, store)

/-- Modelled from the spec: listing all Preference records is
super_admin-only. -/
def listUserPreferences (a : Actor) (store : PrefStore) : Resp (List PrefRecord) :=
  if authorizeList a then .ok (store.map (fun p => p.2)) else .forbidden

/-! ## User read operations (§3, §4.1) -/

/-- A stored User record (identity fields only; the rest is immutable
metadata the claims do not touch). -/
structure UserRec where
  userId : String
  email : String
  role : Role
deriving DecidableEq, Repr

/-- Modelled from the spec: get a user by id — a non-admin may only read
their own record (test_api.py lines 68-77). -/
def getUserById (a : Actor) (uid : String) (users : List (String × UserRec)) :
    Resp UserRec :=
  if authorize a uid then
    match lookupCtx users uid with
    | some u => .ok u
    | none => .notFound
  else .forbidden

/-- Modelled from the spec: listing all users is super_admin-only
(test_api.py line 80 gives 403 for a normal user). -/
def listUsers (a : Actor) (users : List (String × UserRec)) : Resp (List UserRec) :=
  if authorizeList a then .ok (users.map (fun p => p.2)) else .forbidden

/-! ## Template resolution and the fan-out processor (§4.3, §4.4)

Modelled from the spec, pinned by the ledger assertions of
`test_notification_queue_publishing`. -/

/-- The read-side world the fan-out processor sees: template, preference
and config stores. -/
structure World where
  templates : List ((String × NType × Channel) × String)
  prefs : PrefStore
  configs : ConfigStore
deriving Repr

/-- Template store lookup by full key `(context, type#channel)`. -/
def lookupTpl (w : World) (ctx : String) (t : NType) (c : Channel) : Option String :=
  lookupCtxT w.templates (ctx, t, c)
where
  lookupCtxT : List ((String × NType × Channel) × String) →
      (String × NType × Channel) → Option String
    | [], _ => none
    | (k', v) :: rest, k => if k' = k then some v else lookupCtxT rest k

/-- Modelled from the spec: template resolution order — the recipient's own
`(userId, type#channel)` template when it exists, else the global
`("*", type#channel)` template (§4.3). -/
def resolveTemplate (w : World) (u : String) (t : NType) (c : Channel) :
    Option String :=
  match lookupTpl w u t c with
  | some s => some s
  | none => lookupTpl w "*" t c

/-- Modelled from the spec: the preference entry governing `(recipient,
type)` — the recipient's own record's entry when a record exists for them,
else the global record's entry (the admin recipient in
`test_notification_queue_publishing` has no own record and is served by the
global preferences). -/
def prefEntryFor (w : World) (u : String) (t : NType) : Option PrefEntry :=
  match lookupCtx w.prefs u with
  | some r => lookupType r.preferences t
  | none =>
    match lookupCtx w.prefs "*" with
    | some g => lookupType g.preferences t
    | none => none

/-- The channel-enabled flag contributed by one (possibly absent) config
record: an absent record, channel section or flag does not disable. -/
def chanEnabled (cfg? : Option SysConfigRecord) (c : Channel) : Bool :=
  match cfg? with
  | none => true
  | some r =>
    match c with
    | .email => ((r.config.email.map (fun e => e.enabled.getD true)).getD true)
    | .slack => ((r.config.slack.map (fun s => s.enabled.getD true)).getD true)
    | .in_app => ((r.config.inApp.map (fun i => i.enabled.getD true)).getD true)

/-- Modelled from the spec: effective channel-enabled — the logical AND of
the global config channel flag, the user config channel flag, membership of
the channel in the governing preference entry's `channels` set, and that
entry's `enabled` flag (§4.2 read side); no governing entry means the
channel is skipped. -/
def effectiveEnabled (w : World) (u : String) (t : NType) (c : Channel) : Bool :=
  match prefEntryFor w u t with
  | none => false
  | some e =>
    chanEnabled (lookupCtx w.configs "*") c
      && chanEnabled (lookupCtx w.configs u) c
      && e.channels.contains c
      && e.enabled

/-- A DeliveryRecord: composite key `id#userId#type#channel`, with rendered
`content` on success or `error` on failure. -/
structure DeliveryRec where
  id : String
  userId : String
  ntype : NType
  channel : Channel
  content : Option String
  error : Option String
deriving DecidableEq, Repr

/-- Modelled from the spec: the per-channel step of the fan-out — skip a
channel whose effective flag is off (no record); otherwise resolve the
template, writing a success record with the rendered content, or an error
record when no template exists for either context (§4.4 steps 2-4). -/
def deliverChannel (w : World) (id u : String) (t : NType)
    (vars : List (String × String)) (c : Channel) : Option DeliveryRec :=
  if effectiveEnabled w u t c then
    some
      (match resolveTemplate w u t c with
       | some tpl => ⟨id, u, t, c, some (channelContent c (render tpl vars)), none⟩
       | none => ⟨id, u, t, c, none, some "Template not found"⟩)
  else none

/-- All channels, in the order the processor iterates them. -/
def allChannels : List Channel := [.email, .slack, .in_app]

/-- Modelled from the spec: fan one request out to one recipient — one
optional record per channel. -/
def processRecipient (w : World) (id : String) (t : NType)
    (vars : List (String × String)) (u : String) : List DeliveryRec :=
  allChannels.filterMap (deliverChannel w id u t vars)

/-- A queued notification request. -/
structure NotifRequest where
  id : String
  ntype : NType
  recipients : List String
  vars : List (String × String)
deriving DecidableEq, Repr

/-- Modelled from the spec: fan one request out to all its recipients. -/
def processRequest (w : World) (req : NotifRequest) : List DeliveryRec :=
  req.recipients.flatMap (processRecipient w req.id req.ntype req.vars)

/-- Modelled from the spec: process a queue batch item by item; a
per-recipient or per-channel condition is a recorded outcome, never a batch
failure. -/
def processBatch (w : World) (batch : List NotifRequest) : List DeliveryRec :=
  batch.flatMap (processRequest w)

/-! ## Scheduler (§4.5)

Modelled from the spec: per-schedule state machine `active ⇄ paused`,
delete terminal from any state; a cron trigger while `paused` emits
nothing. -/

/-- A ScheduledNotification's status. -/
inductive SchedStatus where
  | active
  | paused
deriving DecidableEq, Repr

/-- A ScheduledNotification record. -/
structure Sched where
  scheduleId : String
  userId : String
  ntype : NType
  vars : List (String × String)
  cronExpr : String
  status : SchedStatus
deriving DecidableEq, Repr

/-- Store for ScheduledNotifications, keyed by schedule id. -/
abbrev SchedStore : Type := List (String × Sched)

/-- Modelled from the spec: creation yields an `active` schedule with a
generated, immutable id. -/
def createScheduled (sid uid : String) (t : NType)
    (vars : List (String × String)) (cron : String) : Sched :=
  ⟨sid, uid, t, vars, cron, .active⟩

/-- Modelled from the spec: pause a schedule (`active → paused`), 404 when
absent. -/
def pauseScheduled (store : SchedStore) (sid : String) : Resp Sched × SchedStore :=
  match lookupCtx store sid with
  | none => (.notFound, store)
  | some s =>
    let s' := { s with status := .paused }
    (.ok s', replaceCtx store sid s')

/-- Modelled from the spec: resume a schedule (`paused → active`), 404 when
absent. -/
def resumeScheduled (store : SchedStore) (sid : String) : Resp Sched × SchedStore :=
  match lookupCtx store sid with
  | none => (.notFound, store)
  | some s =>
    let s' := { s with status := .active }
    (.ok s', replaceCtx store sid s')

/-- Modelled from the spec: update a schedule's variables and/or cron
expression, allowed in either state and leaving the status unchanged. -/
def updateScheduled (store : SchedStore) (sid : String)
    (vars? : Option (List (String × String))) (cron? : Option String) :
    Resp Sched × SchedStore :=
  match lookupCtx store sid with
  | none => (.notFound, store)
  | some s =>
    let s' := { s with vars := vars?.getD s.vars,
                       cronExpr := cron?.getD s.cronExpr }
    (.ok s', replaceCtx store sid s')

/-- Modelled from the spec: delete a schedule, terminal from any state, 404
when absent. -/
def deleteScheduled (store : SchedStore) (sid : String) : Resp Sched × SchedStore :=
  match lookupCtx store sid with
  | none => (.notFound, store)
  | some s => (.ok s, removeCtx store sid)

/-- Modelled from the spec: one cron trigger — while `active` and matching,
synthesize a notification request to the owner; while `paused`, emit
nothing even if the cron expression matches (§4.5). -/
def schedTick (s : Sched) (cronMatches : Bool) (genId : String) :
    Option NotifRequest :=
  if s.status = .active && cronMatches then
    some ⟨genId, s.ntype, [s.userId], s.vars⟩
  else none

/-! ## Config field accessors

Flattened views of a `SysConfig`, used to state frame (preservation)
properties of the merge engine. -/

/-- The `email.fromAddress` field, if present. -/
def cfgEmailFrom (c : SysConfig) : Option String :=
  c.email.bind (fun e => e.fromAddress)

/-- The `email.replyToAddress` field, if present. -/
def cfgEmailReply (c : SysConfig) : Option String :=
  c.email.bind (fun e => e.replyToAddress)

/-- The `email.enabled` field, if present. -/
def cfgEmailEnabled (c : SysConfig) : Option Bool :=
  c.email.bind (fun e => e.enabled)

/-- The `slack.webhookUrl` field, if present. -/
def cfgSlackUrl (c : SysConfig) : Option String :=
  c.slack.bind (fun s => s.webhookUrl)

/-- The `slack.enabled` field, if present. -/
def cfgSlackEnabled (c : SysConfig) : Option Bool :=
  c.slack.bind (fun s => s.enabled)

/-- The `inApp.platformAppIds` field, if present. -/
def cfgInAppIds (c : SysConfig) : Option (List String) :=
  c.inApp.bind (fun i => i.platformAppIds)

/-- The `inApp.enabled` field, if present. -/
def cfgInAppEnabled (c : SysConfig) : Option Bool :=
  c.inApp.bind (fun i => i.enabled)

/-! ## Concrete data from the test suite

Contexts, payloads and templates lifted verbatim from `test_api.py`, used
as witnesses and counterexample inputs. -/

/-- The normal user's id in the scenes. -/
def u1 : String := "user-1"

/-- The super admin's id in the scenes. -/
def adm : String := "admin-1"

/-- The normal-user actor. -/
def actorU : Actor := ⟨u1, .user⟩

/-- The super-admin actor. -/
def actorA : Actor := ⟨adm, .super_admin⟩

/-- The alert variables sent in `test_notification_queue_publishing`. -/
def alertVars : List (String × String) :=
  [ ("serverName", "web-server-01"), ("environment", "production")
  , ("status", "critical"), ("message", "High CPU usage detected") ]

/-- The global `alert#email` template (test_api.py line 645). -/
def alertEmailTpl : String :=
  "\x7b\"subject\": \"There is an alert in \x7b\x7bserverName\x7d\x7d in \x7b\x7benvironment\x7d\x7d\", \"body\": \"There is an alert in \x7b\x7bserverName\x7d\x7d in \x7b\x7benvironment\x7d\x7d with status \x7b\x7bstatus\x7d\x7d and message \x7b\x7bmessage\x7d\x7d\"\x7d"

/-- The global `alert#slack` template (line 647). -/
def alertSlackTpl : String :=
  "Alert: \x7b\x7bserverName\x7d\x7d is \x7b\x7bstatus\x7d\x7d in \x7b\x7benvironment\x7d\x7d with message \x7b\x7bmessage\x7d\x7d"

/-- The global `alert#in_app` template (line 649). -/
def alertInAppTpl : String :=
  "Alert: \x7b\x7bserverName\x7d\x7d is \x7b\x7bstatus\x7d\x7d in \x7b\x7benvironment\x7d\x7d with message \x7b\x7bmessage\x7d\x7d"

/-- A user-specific `alert#slack` template for the fallback scene. -/
def userSlackTpl : String := "User Alert: \x7b\x7bserverName\x7d\x7d"

/-- The report variables sent in `test_notification_queue_publishing`. -/
def reportVars : List (String × String) :=
  [ ("reportType", "Weekly Performance Report")
  , ("period", "2024-01-01 to 2024-01-07")
  , ("data", "System performance metrics for the past week") ]

/-- The global `report#email` template (line 652). -/
def reportEmailTpl : String :=
  "\x7b\"subject\": \"There is a report in \x7b\x7breportType\x7d\x7d for \x7b\x7bperiod\x7d\x7d\", \"body\": \"There is a report in \x7b\x7breportType\x7d\x7d for \x7b\x7bperiod\x7d\x7d with data \x7b\x7bdata\x7d\x7d\"\x7d"

/-- The `report#email` ledger content asserted at test_api.py line 738:
keys sorted, whitespace dropped. -/
def reportStoredStr : String :=
  "\x7b\"body\":\"There is a report in Weekly Performance Report for 2024-01-01 to 2024-01-07 with data System performance metrics for the past week\",\"subject\":\"There is a report in Weekly Performance Report for 2024-01-01 to 2024-01-07\"\x7d"

/-- Global preference record of the spec's §8 scenario: `alert` enabled on
all three channels. -/
def globalPrefRec : PrefRecord :=
  ⟨"*", [(.alert, ⟨[.email, .slack, .in_app], true⟩)], some "UTC", some "en"⟩

/-- The user preference record of the spec's §8 scenario: `alert`
restricted to `\x7bslack\x7d`. -/
def userPrefRec : PrefRecord :=
  ⟨u1, [(.alert, ⟨[.slack], true⟩)], some "UTC", some "en"⟩

/-- The global config of the spec's §8 scenario: email and slack enabled,
`inApp` disabled. -/
def globalCfgRec : SysConfigRecord :=
  ⟨"*",
   ⟨some ⟨some "notifications@company.com", some "noreply@company.com", some true⟩,
    some ⟨none, some true⟩,
    some ⟨none, some false⟩⟩,
   "Global config"⟩

/-- The world of the spec's §8 scenario: the three global alert templates,
global and user preferences, global config. -/
def sceneWorld : World :=
  { templates :=
      [ (("*", .alert, .email), alertEmailTpl)
      , (("*", .alert, .slack), alertSlackTpl)
      , (("*", .alert, .in_app), alertInAppTpl) ]
  , prefs := [("*", globalPrefRec), (u1, userPrefRec)]
  , configs := [("*", globalCfgRec)] }

/-- The single record the §8 scenario must produce: a successful slack
delivery with the substituted content asserted at test_api.py line 730. -/
def sceneSlackRec : DeliveryRec :=
  ⟨"alert-1", u1, .alert, .slack,
   some "Alert: web-server-01 is critical in production with message High CPU usage detected",
   none⟩

/-- The scenario world with the `alert#slack` templates removed: slack is
effectively enabled for the user but no template resolves. -/
def worldNoSlackTpl : World :=
  { sceneWorld with
      templates :=
        [ (("*", .alert, .email), alertEmailTpl)
        , (("*", .alert, .in_app), alertInAppTpl) ] }

/-- The scenario world extended with a user-specific `alert#slack`
template, which must win over the global one. -/
def worldUserTpl : World :=
  { sceneWorld with templates := ((u1, .alert, .slack), userSlackTpl) :: sceneWorld.templates }

/-- A world for the report-email delivery of
`test_notification_queue_publishing`: global `report#email` template,
report enabled on email globally, email enabled in the global config. -/
def reportWorld : World :=
  { templates := [(("*", .report, .email), reportEmailTpl)]
  , prefs := [("*", ⟨"*", [(.report, ⟨[.email], true⟩)], some "UTC", some "en"⟩)]
  , configs := [("*", globalCfgRec)] }

/-- The user config payload of `test_system_config_positive` (lines
358-370): slack webhook and enabled, email disabled, in-app app ids and
enabled. -/
def userCfgPayload : SysConfig :=
  ⟨some ⟨none, none, some false⟩,
   some ⟨some "https://hooks.slack.com/user-webhook", some true⟩,
   some ⟨some ["app1", "app2"], some true⟩⟩

/-- The partial update payload of `test_system_config_positive` (lines
390-397): only `slack.enabled` and `email.enabled`. -/
def userCfgUpdate : SysConfig :=
  ⟨some ⟨none, none, some true⟩, some ⟨none, some false⟩, none⟩

/-- The initial global config of
`test_system_config_super_admin_global_replacement` (lines 603-611). -/
def globalCfgInitial : SysConfig :=
  ⟨some ⟨some "initial@company.com", none, some true⟩, some ⟨none, some false⟩, none⟩

/-- The replacement global config of the same test (lines 617-626): no
slack section at all. -/
def globalCfgNew : SysConfig :=
  ⟨some ⟨some "new@company.com", some "noreply@company.com", some true⟩,
   none, some ⟨none, some true⟩⟩

/-- The forbidden non-admin payload of
`test_system_config_permission_validation` (lines 474-479): an
`email.fromAddress` in a user write. -/
def invalidUserCfg : SysConfig :=
  ⟨some ⟨some "user@company.com", none, some true⟩, none, none⟩

/-- The forbidden admin-global payload of the same test (lines 485-490): a
`slack.webhookUrl` in a global write. -/
def invalidGlobalCfg : SysConfig :=
  ⟨none, some ⟨some "https://hooks.slack.com/global-webhook", some true⟩, none⟩

/-- The preferences payload of `test_user_preferences_duplicate_creation`
(lines 309-314). -/
def dupPrefs : List (NType × PrefEntry) := [(.alert, ⟨[.email], true⟩)]

/-- The minimal config payload of `test_system_config_duplicate_creation`
(lines 585-589). -/
def dupCfg : SysConfig := ⟨none, some ⟨none, some true⟩, none⟩

/-- The scheduled notification created in `test_scheduled_notifications`
(lines 765-770). -/
def schedRec : Sched :=
  createScheduled "sched-1" u1 .alert
    [ ("message", "Daily reminder"), ("serverName", "web-server-01")
    , ("environment", "production"), ("status", "critical") ]
    "0 9 * * ? *"

/-! ## Helper lemmas -/

/-- Removing a key makes its lookup fail. -/
theorem lookupCtx_removeCtx_self {α : Type} (store : List (String × α)) (k : String) :
    lookupCtx (removeCtx store k) k = none := by
  induction store with
  | nil => rfl
  | cons p rest ih =>
    by_cases h : p.1 = k
    · simpa [removeCtx, h] using ih
    · simpa [removeCtx, lookupCtx, h] using ih

/-- The guard always allows an actor's own context. -/
theorem authorize_self (a : Actor) : authorize a a.userId = true := by
  cases a with
  | mk uid role => cases role <;> simp [authorize]

/-- For a non-admin, the guard allows exactly the actor's own context. -/
theorem authorize_user (a : Actor) (target : String) (h : a.role = .user) :
    authorize a target = (target = a.userId : Bool) := by
  cases a with
  | mk uid role => cases role <;> simp_all [authorize]

/-- The guard always allows a super admin. -/
theorem authorize_admin (a : Actor) (target : String) (h : a.role = .super_admin) :
    authorize a target = true := by
  cases a with
  | mk uid role => cases role <;> simp_all [authorize]

/-- Every channel occurs in the iteration list. -/
theorem mem_allChannels (c : Channel) : c ∈ allChannels := by
  cases c <;> simp [allChannels]

/-- A per-channel delivery record carries the channel it was produced for. -/
theorem deliverChannel_channel (w : World) (id u : String) (t : NType)
    (vars : List (String × String)) (c : Channel) (r : DeliveryRec)
    (h : deliverChannel w id u t vars c = some r) : r.channel = c := by
  rw [deliverChannel] at h
  by_cases he : effectiveEnabled w u t c
  · rw [if_pos he] at h
    cases hr : resolveTemplate w u t c <;> rw [hr] at h <;> cases h <;> rfl
  · rw [if_neg he] at h
    cases h

/-- A channel produces a record only when effectively enabled. -/
theorem deliverChannel_enabled (w : World) (id u : String) (t : NType)
    (vars : List (String × String)) (c : Channel) (r : DeliveryRec)
    (h : deliverChannel w id u t vars c = some r) : effectiveEnabled w u t c = true := by
  rw [deliverChannel] at h
  by_cases he : effectiveEnabled w u t c
  · exact he
  · rw [if_neg he] at h
    cases h

/-- An effectively enabled channel always produces a record for itself. -/
theorem deliverChannel_some (w : World) (id u : String) (t : NType)
    (vars : List (String × String)) (c : Channel)
    (he : effectiveEnabled w u t c = true) :
    ∃ r, deliverChannel w id u t vars c = some r ∧ r.channel = c := by
  rw [deliverChannel, if_pos he]
  cases hr : resolveTemplate w u t c
  · exact ⟨_, rfl, rfl⟩
  · exact ⟨_, rfl, rfl⟩

/-- The effective flag, unfolded through a user preference entry. -/
theorem effectiveEnabled_eq (w : World) (u : String) (t : NType) (c : Channel)
    (pr : PrefRecord) (e : PrefEntry)
    (h1 : lookupCtx w.prefs u = some pr)
    (h2 : lookupType pr.preferences t = some e) :
    effectiveEnabled w u t c =
      (chanEnabled (lookupCtx w.configs "*") c
        && chanEnabled (lookupCtx w.configs u) c
        && e.channels.contains c
        && e.enabled) := by
  simp [effectiveEnabled, prefEntryFor, h1, h2]

/-- `mergeChan` preserves any sub-field the update leaves unset. -/
theorem mergeChan_frame {α β : Type} (f : α → Option β) (m : α → α → α)
    (hm : ∀ o n, f n = none → f (m o n) = f o) (o n : Option α)
    (h : n.bind f = none) : (mergeChan m o n).bind f = o.bind f := by
  cases n with
  | none => rfl
  | some nc =>
    cases o with
    | none => exact h
    | some oc => exact hm oc nc (by simpa using h)

/-- `mergeSlack` keeps the stored webhook URL when the update has none. -/
theorem mergeSlack_url (o n : SlackCfg) (h : n.webhookUrl = none) :
    (mergeSlack o n).webhookUrl = o.webhookUrl := by
  rw [mergeSlack]
  rw [h]
  rfl

/-- `mergeSlack` keeps the stored enabled flag when the update has none. -/
theorem mergeSlack_enabled (o n : SlackCfg) (h : n.enabled = none) :
    (mergeSlack o n).enabled = o.enabled := by
  rw [mergeSlack]
  rw [h]
  rfl

/-- `mergeEmail` keeps the stored from-address when the update has none. -/
theorem mergeEmail_from (o n : EmailCfg) (h : n.fromAddress = none) :
    (mergeEmail o n).fromAddress = o.fromAddress := by
  rw [mergeEmail]
  rw [h]
  rfl

/-- `mergeEmail` keeps the stored reply-to address when the update has none. -/
theorem mergeEmail_reply (o n : EmailCfg) (h : n.replyToAddress = none) :
    (mergeEmail o n).replyToAddress = o.replyToAddress := by
  rw [mergeEmail]
  rw [h]
  rfl

/-- `mergeEmail` keeps the stored enabled flag when the update has none. -/
theorem mergeEmail_enabled (o n : EmailCfg) (h : n.enabled = none) :
    (mergeEmail o n).enabled = o.enabled := by
  rw [mergeEmail]
  rw [h]
  rfl

/-- `mergeInApp` keeps the stored platform app ids when the update has none. -/
theorem mergeInApp_ids (o n : InAppCfg) (h : n.platformAppIds = none) :
    (mergeInApp o n).platformAppIds = o.platformAppIds := by
  rw [mergeInApp]
  rw [h]
  rfl

/-- `mergeInApp` keeps the stored enabled flag when the update has none. -/
theorem mergeInApp_enabled (o n : InAppCfg) (h : n.enabled = none) :
    (mergeInApp o n).enabled = o.enabled := by
  rw [mergeInApp]
  rw [h]
  rfl

/-- Template resolution only reads the template store at its own channel. -/
theorem resolveTemplate_congr (w w' : World) (c : Channel)
    (htpl : ∀ (ctx : String) (ty : NType) (c' : Channel), c' ≠ c →
      lookupTpl w' ctx ty c' = lookupTpl w ctx ty c')
    (u : String) (t : NType) (c' : Channel) (hne : c' ≠ c) :
    resolveTemplate w' u t c' = resolveTemplate w u t c' := by
  rw [resolveTemplate, resolveTemplate, htpl u t c' hne, htpl "*" t c' hne]

/-- The effective flag only reads the preference and config stores. -/
theorem effectiveEnabled_congr (w w' : World) (hp : w'.prefs = w.prefs)
    (hc : w'.configs = w.configs) (u : String) (t : NType) (c' : Channel) :
    effectiveEnabled w' u t c' = effectiveEnabled w u t c' := by
  rw [effectiveEnabled, effectiveEnabled, prefEntryFor, prefEntryFor, hp, hc]

/-- A channel's delivery step is unchanged by template edits at other
channels. -/
theorem deliverChannel_congr (w w' : World) (c : Channel)
    (hp : w'.prefs = w.prefs) (hc : w'.configs = w.configs)
    (htpl : ∀ (ctx : String) (ty : NType) (c' : Channel), c' ≠ c →
      lookupTpl w' ctx ty c' = lookupTpl w ctx ty c')
    (id u : String) (t : NType) (vars : List (String × String))
    (c' : Channel) (hne : c' ≠ c) :
    deliverChannel w' id u t vars c' = deliverChannel w id u t vars c' := by
  rw [deliverChannel, deliverChannel, effectiveEnabled_congr w w' hp hc u t c',
    resolveTemplate_congr w w' c htpl u t c' hne]

/-- Channel-wise fan-out: records at channels other than `c` are unchanged
when the two worlds' per-channel steps agree off `c`. -/
theorem filterMap_filter_congr (w w' : World) (id u : String) (t : NType)
    (vars : List (String × String)) (c : Channel)
    (hd : ∀ c', c' ≠ c → deliverChannel w' id u t vars c' = deliverChannel w id u t vars c') :
    ∀ cs : List Channel,
      (cs.filterMap (deliverChannel w' id u t vars)).filter (fun r => r.channel ≠ c)
        = (cs.filterMap (deliverChannel w id u t vars)).filter (fun r => r.channel ≠ c) := by
  intro cs
  induction cs with
  | nil => rfl
  | cons c' cs ih =>
    by_cases hc : c' = c
    · subst hc
      rw [List.filterMap_cons, List.filterMap_cons]
      cases h1 : deliverChannel w' id u t vars c' with
      | none =>
        cases h2 : deliverChannel w id u t vars c' with
        | none => exact ih
        | some r2 =>
          have hch2 := deliverChannel_channel w id u t vars c' r2 h2
          rw [List.filter_cons_of_neg (by simp [hch2])]
          exact ih
      | some r1 =>
        have hch1 := deliverChannel_channel w' id u t vars c' r1 h1
        cases h2 : deliverChannel w id u t vars c' with
        | none =>
          rw [List.filter_cons_of_neg (by simp [hch1])]
          exact ih
        | some r2 =>
          have hch2 := deliverChannel_channel w id u t vars c' r2 h2
          rw [List.filter_cons_of_neg (by simp [hch1]),
            List.filter_cons_of_neg (by simp [hch2])]
          exact ih
    · rw [List.filterMap_cons, List.filterMap_cons, hd c' hc]
      cases h1 : deliverChannel w id u t vars c' with
      | none => exact ih
      | some r =>
        by_cases hr : r.channel = c
        · rw [List.filter_cons_of_neg (by simp [hr]), List.filter_cons_of_neg (by simp [hr])]
          exact ih
        · rw [List.filter_cons_of_pos (by simp [hr]), List.filter_cons_of_pos (by simp [hr]),
            ih]

/-! ## Claim theorems -/

/-- C9: constructing `NotificationServiceStack`, as `app.py` does on every
run, always raises before synthesis completes: `_create_sqs_queue`
references the never-imported name `sqs` (a `NameError` for every
environment input), `notification_topic` is assigned by no method, and had
the queue step succeeded, `_create_lambda_functions` would still fail
reading `self.notification_topic` — so the stack can never be built. -/
theorem stack_construction_always_fails :
    (∀ (account : Option String) (region environmentName : String),
       initStack account region environmentName = .error (.nameError "sqs"))
    ∧ moduleNames.contains "sqs" = false
    ∧ allAssignedAttrs.contains "notification_topic" = false
    ∧ createLambdaFunctions stateAfterQueues = .error (.attrError "notification_topic") := by
  refine ⟨fun account region environmentName => ?_, by decide, by decide, rfl⟩
  rfl

/-- C10: the queue message body built by `send_notification_to_queue` is an
object with exactly the keys `id`, `type`, `recipients`, `variables` in
that order; `recipients` is always a JSON array (a non-list argument is
wrapped into a one-element list) and `variables` is always a JSON object (a
`None` argument becomes the empty object). -/
theorem queue_message_body_shape :
    (∀ (id ntype : String) (recips : RecipientsArg) (vars : Option (List (String × String))),
       (messageBody id ntype recips vars).map Prod.fst = ["id", "type", "recipients", "variables"]
       ∧ jLookup "recipients" (messageBody id ntype recips vars)
           = some (JVal.arr (toRecipientsList recips))
       ∧ jLookup "variables" (messageBody id ntype recips vars)
           = some (JVal.obj (vars.getD [])))
    ∧ (∀ r, toRecipientsList (.one r) = [r])
    ∧ (∀ (id ntype : String) (recips : RecipientsArg),
       jLookup "variables" (messageBody id ntype recips none) = some (JVal.obj [])) := by
  refine ⟨fun id ntype recips vars => ⟨rfl, ?_, ?_⟩, fun r => rfl, fun id ntype recips => ?_⟩
  · simp [messageBody, jLookup]
  · simp [messageBody, jLookup]
  · simp [messageBody, jLookup]

/-- C8: a ScheduledNotification is created `active`; pause on an active
schedule yields `paused`; resume on a paused schedule yields `active`;
updating variables and/or cron expression succeeds in either state and
leaves the status unchanged; delete succeeds from any state and removes the
record; and while paused, no notification request is emitted even when the
cron expression matches. -/
theorem scheduled_lifecycle :
    (∀ (sid uid : String) (t : NType) (vars : List (String × String)) (cron : String),
       (createScheduled sid uid t vars cron).status = .active)
    ∧ (∀ (store : SchedStore) (sid : String) (s : Sched),
       lookupCtx store sid = some s → s.status = .active →
       (pauseScheduled store sid).1 = .ok { s with status := .paused })
    ∧ (∀ (store : SchedStore) (sid : String) (s : Sched),
       lookupCtx store sid = some s → s.status = .paused →
       (resumeScheduled store sid).1 = .ok { s with status := .active })
    ∧ (∀ (store : SchedStore) (sid : String) (s : Sched)
         (vars? : Option (List (String × String))) (cron? : Option String),
       lookupCtx store sid = some s →
       (updateScheduled store sid vars? cron?).1
         = .ok { s with vars := vars?.getD s.vars, cronExpr := cron?.getD s.cronExpr }
       ∧ ({ s with vars := vars?.getD s.vars, cronExpr := cron?.getD s.cronExpr } : Sched).status
           = s.status)
    ∧ (∀ (store : SchedStore) (sid : String) (s : Sched),
       lookupCtx store sid = some s →
       deleteScheduled store sid = (.ok s, removeCtx store sid)
       ∧ lookupCtx (removeCtx store sid) sid = none)
    ∧ (∀ (s : Sched) (cronMatches : Bool) (genId : String),
       s.status = .paused → schedTick s cronMatches genId = none) := by
  refine ⟨fun sid uid t vars cron => rfl, ?_, ?_, ?_, ?_, ?_⟩
  · intro store sid s h _
    rw [pauseScheduled, h]
  · intro store sid s h _
    rw [resumeScheduled, h]
  · intro store sid s vars? cron? h
    rw [updateScheduled, h]
    exact ⟨rfl, rfl⟩
  · intro store sid s h
    rw [deleteScheduled, h]
    exact ⟨rfl, lookupCtx_removeCtx_self store sid⟩
  · intro s cronMatches genId h
    rw [schedTick, h]
    rfl

/-- C8 witness: the schedule of `test_scheduled_notifications` is created
active, pauses to `paused`, resumes to `active`, and a cron trigger while
paused emits nothing. -/
theorem scheduled_lifecycle_witness :
    (createScheduled "sched-1" u1 .alert schedRec.vars "0 9 * * ? *").status = .active
    ∧ (pauseScheduled [("sched-1", schedRec)] "sched-1").1
        = .ok { schedRec with status := .paused }
    ∧ (resumeScheduled [("sched-1", { schedRec with status := .paused })] "sched-1").1
        = .ok { schedRec with status := .active }
    ∧ schedTick { schedRec with status := .paused } true "gen-1" = none :=
  ⟨scheduled_lifecycle.1 "sched-1" u1 .alert schedRec.vars "0 9 * * ? *",
   scheduled_lifecycle.2.1 [("sched-1", schedRec)] "sched-1" schedRec (by decide) (by decide),
   scheduled_lifecycle.2.2.1 [("sched-1", { schedRec with status := .paused })] "sched-1"
     { schedRec with status := .paused } (by decide) (by decide),
   scheduled_lifecycle.2.2.2.2.2 { schedRec with status := .paused } true "gen-1" (by decide)⟩

/-- C4: for a non-admin actor, every get/create/update/delete whose target
context resolves to `"*"` or to another user's id returns 403 and leaves
the store unchanged; the guard allows the actor's own context (their
`userId`, or the empty string meaning their own context), so such calls
proceed to validation; and listing users, preferences or configs is allowed
exactly for `super_admin`. -/
theorem non_admin_context_denial :
    (∀ (a : Actor) (t : String) (store : ConfigStore) (cfg? : Option SysConfig)
       (d : String) (d? : Option String),
       a.role = .user → resolveCtx a t ≠ a.userId →
       createSystemConfig a t cfg? d store = (.forbidden, store)
       ∧ getSystemConfig a t store = .forbidden
       ∧ updateSystemConfig a t cfg? d? store = (.forbidden, store)
       ∧ deleteSystemConfig a t store = (.forbidden, store))
    ∧ (∀ (a : Actor) (t : String) (pstore : PrefStore)
         (prefs? : Option (List (NType × PrefEntry))) (tz? lang? : Option String),
       a.role = .user → resolveCtx a t ≠ a.userId →
       createUserPreferences a t prefs? tz? lang? pstore = (.forbidden, pstore)
       ∧ getUserPreferences a t pstore = .forbidden
       ∧ updateUserPreferences a t prefs? tz? lang? pstore = (.forbidden, pstore)
       ∧ deleteUserPreferences a t pstore = (.forbidden, pstore))
    ∧ (∀ (a : Actor) (uid : String) (users : List (String × UserRec)),
       a.role = .user → uid ≠ a.userId → getUserById a uid users = .forbidden)
    ∧ (∀ (a : Actor) (store : ConfigStore) (pstore : PrefStore)
         (users : List (String × UserRec)),
       a.role = .user →
       listSystemConfig a store = .forbidden
       ∧ listUserPreferences a pstore = .forbidden
       ∧ listUsers a users = .forbidden)
    ∧ (∀ a : Actor, authorize a a.userId = true ∧ resolveCtx a "" = a.userId)
    ∧ (∀ a : Actor, authorizeList a = true ↔ a.role = .super_admin) := by
  refine ⟨?_, ?_, ?_, ?_, fun a => ⟨authorize_self a, rfl⟩, fun a => ?_⟩
  · intro a t store cfg? d d? h1 h2
    have ha : authorize a (resolveCtx a t) = false := by
      rw [authorize_user a _ h1]
      simpa using h2
    refine ⟨?_, ?_, ?_, ?_⟩ <;>
      simp [createSystemConfig, getSystemConfig, updateSystemConfig, deleteSystemConfig, ha]
  · intro a t pstore prefs? tz? lang? h1 h2
    have ha : authorize a (resolveCtx a t) = false := by
      rw [authorize_user a _ h1]
      simpa using h2
    refine ⟨?_, ?_, ?_, ?_⟩ <;>
      simp [createUserPreferences, getUserPreferences, updateUserPreferences,
        deleteUserPreferences, ha]
  · intro a uid users h1 h2
    have ha : authorize a uid = false := by
      rw [authorize_user a _ h1]
      simpa using h2
    simp [getUserById, ha]
  · intro a store pstore users h1
    have ha : authorizeList a = false := by
      simp [authorizeList, h1]
    exact ⟨by simp [listSystemConfig, ha], by simp [listUserPreferences, ha],
      by simp [listUsers, ha]⟩
  · constructor
    · intro h
      simpa [authorizeList] using h
    · intro h
      simp [authorizeList, h]

/-- C4 witness: the normal user is denied on the `"*"` context for config
get/create, on preference get, on listing, and on reading the admin's user
record; the guard allows their own context and the empty-string context. -/
theorem non_admin_context_denial_witness :
    getSystemConfig actorU "*" [] = .forbidden
    ∧ createSystemConfig actorU "*" (some dupCfg) "x" [] = (.forbidden, [])
    ∧ getUserPreferences actorU "*" [] = .forbidden
    ∧ listUsers actorU [] = .forbidden
    ∧ getUserById actorU adm [] = .forbidden
    ∧ authorize actorU actorU.userId = true
    ∧ resolveCtx actorU "" = actorU.userId :=
  ⟨(non_admin_context_denial.1 actorU "*" [] (some dupCfg) "x" none (by decide)
      (by decide)).2.1,
   (non_admin_context_denial.1 actorU "*" [] (some dupCfg) "x" none (by decide)
      (by decide)).1,
   (non_admin_context_denial.2.1 actorU "*" [] none none none (by decide) (by decide)).2.1,
   (non_admin_context_denial.2.2.2.1 actorU [] [] [] (by decide)).2.2,
   non_admin_context_denial.2.2.1 actorU adm [] (by decide) (by decide),
   (non_admin_context_denial.2.2.2.2.1 actorU).1,
   (non_admin_context_denial.2.2.2.2.1 actorU).2⟩

/-- C7: for an authorized caller, a second create of a Preference or
SystemConfig record for an existing context fails with the conflict
outcome 400 leaving the store unchanged; after a successful delete a get
for that context returns 404; and update or delete against a context with
no record return 404. -/
theorem duplicate_create_and_not_found :
    (∀ (a : Actor) (ctx : String) (prefs : List (NType × PrefEntry))
       (tz? lang? : Option String) (store : PrefStore) (r : PrefRecord),
       authorize a (resolveCtx a ctx) = true →
       lookupCtx store (resolveCtx a ctx) = some r →
       createUserPreferences a ctx (some prefs) tz? lang? store = (.bad, store))
    ∧ (∀ (a : Actor) (ctx : String) (store store' : PrefStore) (r : PrefRecord),
       deleteUserPreferences a ctx store = (.ok r, store') →
       getUserPreferences a ctx store' = .notFound)
    ∧ (∀ (a : Actor) (ctx : String) (prefs : List (NType × PrefEntry))
         (tz? lang? : Option String) (store : PrefStore),
       authorize a (resolveCtx a ctx) = true →
       lookupCtx store (resolveCtx a ctx) = none →
       updateUserPreferences a ctx (some prefs) tz? lang? store = (.notFound, store)
       ∧ deleteUserPreferences a ctx store = (.notFound, store))
    ∧ (∀ (a : Actor) (ctx : String) (cfg : SysConfig) (d : String)
         (store : ConfigStore) (r : SysConfigRecord),
       authorize a (resolveCtx a ctx) = true →
       configWriteForbidden a.role (resolveCtx a ctx) cfg = false →
       lookupCtx store (resolveCtx a ctx) = some r →
       createSystemConfig a ctx (some cfg) d store = (.bad, store))
    ∧ (∀ (a : Actor) (ctx : String) (store store' : ConfigStore) (r : SysConfigRecord),
       deleteSystemConfig a ctx store = (.ok r, store') →
       getSystemConfig a ctx store' = .notFound)
    ∧ (∀ (a : Actor) (ctx : String) (cfg : SysConfig) (d? : Option String)
         (store : ConfigStore),
       authorize a (resolveCtx a ctx) = true →
       configWriteForbidden a.role (resolveCtx a ctx) cfg = false →
       lookupCtx store (resolveCtx a ctx) = none →
       updateSystemConfig a ctx (some cfg) d? store = (.notFound, store)
       ∧ deleteSystemConfig a ctx store = (.notFound, store)) := by
  refine ⟨?_, ?_, ?_, ?_, ?_, ?_⟩
  · intro a ctx prefs tz? lang? store r ha hr
    simp [createUserPreferences, ha, hr]
  · intro a ctx store store' r h
    rw [deleteUserPreferences] at h
    by_cases ha : authorize a (resolveCtx a ctx)
    · rw [if_pos ha] at h
      cases hr : lookupCtx store (resolveCtx a ctx) <;> rw [hr] at h
      · cases h
      · cases h
        rw [getUserPreferences, if_pos ha, lookupCtx_removeCtx_self]
    · rw [if_neg ha] at h
      cases h
  · intro a ctx prefs tz? lang? store ha hr
    constructor
    · simp [updateUserPreferences, ha, hr]
    · simp [deleteUserPreferences, ha, hr]
  · intro a ctx cfg d store r ha hf hr
    simp [createSystemConfig, ha, hf, hr]
  · intro a ctx store store' r h
    rw [deleteSystemConfig] at h
    by_cases ha : authorize a (resolveCtx a ctx)
    · rw [if_pos ha] at h
      cases hr : lookupCtx store (resolveCtx a ctx) <;> rw [hr] at h
      · cases h
      · cases h
        rw [getSystemConfig, if_pos ha, lookupCtx_removeCtx_self]
    · rw [if_neg ha] at h
      cases h
  · intro a ctx cfg d? store ha hf hr
    constructor
    · simp [updateSystemConfig, ha, hf, hr]
    · simp [deleteSystemConfig, ha, hr]

/-- C7 witness: the duplicate preference and config creates of
`test_user_preferences_duplicate_creation` and
`test_system_config_duplicate_creation` yield 400 with the store unchanged;
delete-then-get yields 404; update/delete of a missing record yield 404. -/
theorem duplicate_create_and_not_found_witness :
    createUserPreferences actorU "" (some dupPrefs) (some "UTC") (some "en")
        [(u1, ⟨u1, dupPrefs, some "UTC", some "en"⟩)]
      = (.bad, [(u1, ⟨u1, dupPrefs, some "UTC", some "en"⟩)])
    ∧ getUserPreferences actorU ""
        (deleteUserPreferences actorU "" [(u1, ⟨u1, dupPrefs, some "UTC", some "en"⟩)]).2
      = .notFound
    ∧ updateUserPreferences actorU "" (some dupPrefs) none none [] = (.notFound, [])
    ∧ createSystemConfig actorU "" (some dupCfg) "Duplicate config"
        [(u1, ⟨u1, dupCfg, "Initial config"⟩)]
      = (.bad, [(u1, ⟨u1, dupCfg, "Initial config"⟩)])
    ∧ getSystemConfig actorU ""
        (deleteSystemConfig actorU "" [(u1, ⟨u1, dupCfg, "Initial config"⟩)]).2
      = .notFound
    ∧ updateSystemConfig actorU "" (some dupCfg) none [] = (.notFound, []) :=
  ⟨duplicate_create_and_not_found.1 actorU "" dupPrefs (some "UTC") (some "en")
      [(u1, ⟨u1, dupPrefs, some "UTC", some "en"⟩)] ⟨u1, dupPrefs, some "UTC", some "en"⟩
      (by decide) (by decide),
   duplicate_create_and_not_found.2.1 actorU ""
      [(u1, ⟨u1, dupPrefs, some "UTC", some "en"⟩)] _ ⟨u1, dupPrefs, some "UTC", some "en"⟩
      (by decide),
   (duplicate_create_and_not_found.2.2.1 actorU "" dupPrefs none none [] (by decide)
      (by decide)).1,
   duplicate_create_and_not_found.2.2.2.1 actorU "" dupCfg "Duplicate config"
      [(u1, ⟨u1, dupCfg, "Initial config"⟩)] ⟨u1, dupCfg, "Initial config"⟩
      (by decide) (by decide) (by decide),
   duplicate_create_and_not_found.2.2.2.2.1 actorU ""
      [(u1, ⟨u1, dupCfg, "Initial config"⟩)] _ ⟨u1, dupCfg, "Initial config"⟩ (by decide),
   (duplicate_create_and_not_found.2.2.2.2.2 actorU "" dupCfg none [] (by decide)
      (by decide) (by decide)).1⟩

/-- C3 counterexample: the non-admin create of `test_system_config_positive`
(lines 358-373), whose payload contains both `slack.webhookUrl` and
`inApp.platformAppIds`, succeeds with 201 and stores the record — it is not
rejected as forbidden as the claim states. -/
theorem config_forbidden_fields_counterexample :
    cfgSlackUrl userCfgPayload = some "https://hooks.slack.com/user-webhook"
    ∧ cfgInAppIds userCfgPayload = some ["app1", "app2"]
    ∧ (createSystemConfig actorU "" (some userCfgPayload) "User specific config" []).1.code
        = 201
    ∧ (createSystemConfig actorU "" (some userCfgPayload) "User specific config" []).2
        = [(u1, ⟨u1, userCfgPayload, "User specific config"⟩)] := by
  refine ⟨rfl, rfl, by decide, by decide⟩

/-- C3 amended: a non-admin SystemConfig create or update whose payload
contains `email.fromAddress` or `email.replyToAddress` is rejected as
forbidden (403) with nothing stored; a super_admin create or update of the
global `"*"` context whose payload contains `slack.webhookUrl` or
`inApp.platformAppIds` is likewise rejected as forbidden with nothing
stored.  (`slack.webhookUrl` and `inApp.platformAppIds` are user-owned:
a non-admin may set them in their own context, and an admin may set the
email address fields globally.) -/
theorem config_forbidden_fields :
    (∀ (a : Actor) (ctxArg : String) (cfg : SysConfig) (d : String) (store : ConfigStore),
       a.role = .user → cfgHasEmailAddrs cfg = true →
       createSystemConfig a ctxArg (some cfg) d store = (.forbidden, store))
    ∧ (∀ (a : Actor) (ctxArg : String) (cfg : SysConfig) (d? : Option String)
         (store : ConfigStore),
       a.role = .user → cfgHasEmailAddrs cfg = true →
       updateSystemConfig a ctxArg (some cfg) d? store = (.forbidden, store))
    ∧ (∀ (a : Actor) (ctxArg : String) (cfg : SysConfig) (d : String) (store : ConfigStore),
       a.role = .super_admin → resolveCtx a ctxArg = "*" → cfgHasUserOwned cfg = true →
       createSystemConfig a ctxArg (some cfg) d store = (.forbidden, store))
    ∧ (∀ (a : Actor) (ctxArg : String) (cfg : SysConfig) (d? : Option String)
         (store : ConfigStore),
       a.role = .super_admin → resolveCtx a ctxArg = "*" → cfgHasUserOwned cfg = true →
       updateSystemConfig a ctxArg (some cfg) d? store = (.forbidden, store)) := by
  refine ⟨?_, ?_, ?_, ?_⟩
  · intro a ctxArg cfg d store h1 h2
    have hf : configWriteForbidden a.role (resolveCtx a ctxArg) cfg = true := by
      rw [h1]
      exact h2
    by_cases ha : authorize a (resolveCtx a ctxArg)
    · simp [createSystemConfig, ha, hf]
    · simp [createSystemConfig, ha]
  · intro a ctxArg cfg d? store h1 h2
    have hf : configWriteForbidden a.role (resolveCtx a ctxArg) cfg = true := by
      rw [h1]
      exact h2
    by_cases ha : authorize a (resolveCtx a ctxArg)
    · simp [updateSystemConfig, ha, hf]
    · simp [updateSystemConfig, ha]
  · intro a ctxArg cfg d store h1 h2 h3
    have hf : configWriteForbidden a.role (resolveCtx a ctxArg) cfg = true := by
      rw [h1, h2]
      simpa [configWriteForbidden] using h3
    simp [createSystemConfig, authorize_admin a _ h1, hf]
  · intro a ctxArg cfg d? store h1 h2 h3
    have hf : configWriteForbidden a.role (resolveCtx a ctxArg) cfg = true := by
      rw [h1, h2]
      simpa [configWriteForbidden] using h3
    simp [updateSystemConfig, authorize_admin a _ h1, hf]

/-- C3 amended witness: the forbidden payloads of
`test_system_config_permission_validation` — a user write with
`email.fromAddress` and an admin global write with `slack.webhookUrl` — are
both rejected with 403 on an empty store, which stays empty. -/
theorem config_forbidden_fields_witness :
    createSystemConfig actorU "" (some invalidUserCfg) "Invalid user config" []
      = (.forbidden, [])
    ∧ createSystemConfig actorA "*" (some invalidGlobalCfg) "Invalid global config" []
      = (.forbidden, [])
    ∧ updateSystemConfig actorA "*" (some invalidGlobalCfg) none
        [("*", ⟨"*", globalCfgInitial, "Initial global config"⟩)]
      = (.forbidden, [("*", ⟨"*", globalCfgInitial, "Initial global config"⟩)]) :=
  ⟨config_forbidden_fields.1 actorU "" invalidUserCfg "Invalid user config" []
      (by decide) (by decide),
   config_forbidden_fields.2.2.1 actorA "*" invalidGlobalCfg "Invalid global config" []
      (by decide) (by decide) (by decide),
   config_forbidden_fields.2.2.2 actorA "*" invalidGlobalCfg none
      [("*", ⟨"*", globalCfgInitial, "Initial global config"⟩)]
      (by decide) (by decide) (by decide)⟩

/-- C1: a user-scoped SystemConfig update by its owner merges the payload
into the stored config, so every channel sub-field omitted from the payload
(webhook URL, platform app ids, addresses, enabled flags) keeps its stored
value; an update of the global `"*"` config by a super_admin replaces the
stored config object with the payload outright, so fields absent from the
payload are absent afterwards. -/
theorem config_update_merge_vs_replace :
    (∀ (a : Actor) (ctxArg : String) (old : SysConfigRecord) (cfg : SysConfig)
       (d? : Option String) (store : ConfigStore),
       a.role = .user → a.userId ≠ "*" → resolveCtx a ctxArg = a.userId →
       lookupCtx store a.userId = some old →
       cfgHasEmailAddrs cfg = false →
       (updateSystemConfig a ctxArg (some cfg) d? store).1
         = .ok ⟨a.userId, mergeConfig old.config cfg, d?.getD old.description⟩)
    ∧ (∀ old p : SysConfig, cfgSlackUrl p = none →
        cfgSlackUrl (mergeConfig old p) = cfgSlackUrl old)
    ∧ (∀ old p : SysConfig, cfgSlackEnabled p = none →
        cfgSlackEnabled (mergeConfig old p) = cfgSlackEnabled old)
    ∧ (∀ old p : SysConfig, cfgEmailFrom p = none →
        cfgEmailFrom (mergeConfig old p) = cfgEmailFrom old)
    ∧ (∀ old p : SysConfig, cfgEmailReply p = none →
        cfgEmailReply (mergeConfig old p) = cfgEmailReply old)
    ∧ (∀ old p : SysConfig, cfgEmailEnabled p = none →
        cfgEmailEnabled (mergeConfig old p) = cfgEmailEnabled old)
    ∧ (∀ old p : SysConfig, cfgInAppIds p = none →
        cfgInAppIds (mergeConfig old p) = cfgInAppIds old)
    ∧ (∀ old p : SysConfig, cfgInAppEnabled p = none →
        cfgInAppEnabled (mergeConfig old p) = cfgInAppEnabled old)
    ∧ (∀ (a : Actor) (old : SysConfigRecord) (cfg : SysConfig) (d? : Option String)
         (store : ConfigStore),
       a.role = .super_admin →
       lookupCtx store "*" = some old →
       cfgHasUserOwned cfg = false →
       (updateSystemConfig a "*" (some cfg) d? store).1
         = .ok ⟨"*", cfg, d?.getD old.description⟩) := by
  refine ⟨?_, ?_, ?_, ?_, ?_, ?_, ?_, ?_, ?_⟩
  · intro a ctxArg old cfg d? store h1 h0 h2 h3 h4
    have hf : configWriteForbidden a.role (resolveCtx a ctxArg) cfg = false := by
      rw [h1]
      exact h4
    have ha : authorize a (resolveCtx a ctxArg) = true := by
      rw [h2]
      exact authorize_self a
    rw [h2] at ha hf
    simp [updateSystemConfig, ha, hf, h2, h3, h0]
  · intro old p h
    exact mergeChan_frame _ _ mergeSlack_url old.slack p.slack h
  · intro old p h
    exact mergeChan_frame _ _ mergeSlack_enabled old.slack p.slack h
  · intro old p h
    exact mergeChan_frame _ _ mergeEmail_from old.email p.email h
  · intro old p h
    exact mergeChan_frame _ _ mergeEmail_reply old.email p.email h
  · intro old p h
    exact mergeChan_frame _ _ mergeEmail_enabled old.email p.email h
  · intro old p h
    exact mergeChan_frame _ _ mergeInApp_ids old.inApp p.inApp h
  · intro old p h
    exact mergeChan_frame _ _ mergeInApp_enabled old.inApp p.inApp h
  · intro a old cfg d? store h1 h3 h4
    have hf : configWriteForbidden a.role (resolveCtx a "*") cfg = false := by
      rw [h1]
      simpa [resolveCtx, configWriteForbidden] using h4
    have hs : resolveCtx a "*" = "*" := rfl
    rw [hs] at hf
    simp [updateSystemConfig, authorize_admin a _ h1, hf, hs, h3]

/-- C1 witness: the partial update of `test_system_config_positive`
preserves the stored webhook URL and platform app ids it omits, while the
global replacement of `test_system_config_super_admin_global_replacement`
leaves the slack section absent. -/
theorem config_update_merge_vs_replace_witness :
    (updateSystemConfig actorU "" (some userCfgUpdate) (some "Updated user config")
        [(u1, ⟨u1, userCfgPayload, "User specific config"⟩)]).1
      = .ok ⟨u1, mergeConfig userCfgPayload userCfgUpdate, "Updated user config"⟩
    ∧ cfgSlackUrl (mergeConfig userCfgPayload userCfgUpdate)
        = cfgSlackUrl userCfgPayload
    ∧ cfgInAppIds (mergeConfig userCfgPayload userCfgUpdate)
        = cfgInAppIds userCfgPayload
    ∧ (updateSystemConfig actorA "*" (some globalCfgNew)
          (some "Completely new global config")
          [("*", ⟨"*", globalCfgInitial, "Initial global config"⟩)]).1
      = .ok ⟨"*", globalCfgNew, "Completely new global config"⟩
    ∧ globalCfgNew.slack = none :=
  ⟨config_update_merge_vs_replace.1 actorU "" ⟨u1, userCfgPayload, "User specific config"⟩
      userCfgUpdate (some "Updated user config")
      [(u1, ⟨u1, userCfgPayload, "User specific config"⟩)]
      (by decide) (by decide) (by decide) (by decide) (by decide),
   config_update_merge_vs_replace.2.1 userCfgPayload userCfgUpdate (by decide),
   config_update_merge_vs_replace.2.2.2.2.2.2.1 userCfgPayload userCfgUpdate (by decide),
   config_update_merge_vs_replace.2.2.2.2.2.2.2.2 actorA
      ⟨"*", globalCfgInitial, "Initial global config"⟩ globalCfgNew
      (some "Completely new global config")
      [("*", ⟨"*", globalCfgInitial, "Initial global config"⟩)]
      (by decide) (by decide) (by decide),
   rfl⟩

set_option maxRecDepth 40000 in
/-- C2: for a recipient governed by their own preference entry for the
type, a channel receives a delivery record if and only if the global config
channel flag, the user config channel flag, the channel's membership in the
entry's channel set and the entry's enabled flag all hold; and in the
spec's §8 scenario (global preferences enabling all three channels for
`alert`, user preference restricting `alert` to slack, global config
disabling inApp), one alert notification yields exactly one successful
DeliveryRecord, for slack, and no record for email or in_app. -/
theorem effective_channel_iff :
    (∀ (w : World) (u : String) (t : NType) (c : Channel) (id : String)
       (vars : List (String × String)) (pr : PrefRecord) (e : PrefEntry),
       lookupCtx w.prefs u = some pr →
       lookupType pr.preferences t = some e →
       ((∃ r ∈ processRecipient w id t vars u, r.channel = c) ↔
         (chanEnabled (lookupCtx w.configs "*") c = true
          ∧ chanEnabled (lookupCtx w.configs u) c = true
          ∧ e.channels.contains c = true
          ∧ e.enabled = true)))
    ∧ processRecipient sceneWorld "alert-1" .alert alertVars u1 = [sceneSlackRec]
    ∧ sceneSlackRec.channel = .slack
    ∧ sceneSlackRec.error = none := by
  refine ⟨?_, by decide, rfl, rfl⟩
  intro w u t c id vars pr e h1 h2
  constructor
  · rintro ⟨r, hr, hc⟩
    rw [processRecipient, List.mem_filterMap] at hr
    obtain ⟨c', _, hd⟩ := hr
    have hcc := deliverChannel_channel w id u t vars c' r hd
    have hce : c' = c := hcc.symm.trans hc
    subst hce
    have he := deliverChannel_enabled w id u t vars c' r hd
    rw [effectiveEnabled_eq w u t c' pr e h1 h2] at he
    simp only [Bool.and_eq_true] at he
    exact ⟨he.1.1.1, he.1.1.2, he.1.2, he.2⟩
  · rintro ⟨hb1, hb2, hb3, hb4⟩
    have he : effectiveEnabled w u t c = true := by
      rw [effectiveEnabled_eq w u t c pr e h1 h2, hb1, hb2, hb3, hb4]
      rfl
    obtain ⟨r, hd, hc⟩ := deliverChannel_some w id u t vars c he
    refine ⟨r, ?_, hc⟩
    rw [processRecipient, List.mem_filterMap]
    exact ⟨c, mem_allChannels c, hd⟩

/-- C2 witness: in the §8 scenario world the equivalence instantiates to
the user's entry `⟨[slack], true⟩`: slack gets a record because all four
flags hold, and email gets none because it is outside the user's channel
set. -/
theorem effective_channel_iff_witness :
    (∃ r ∈ processRecipient sceneWorld "alert-1" .alert alertVars u1,
       r.channel = Channel.slack)
    ∧ ¬ (∃ r ∈ processRecipient sceneWorld "alert-1" .alert alertVars u1,
       r.channel = Channel.email) :=
  ⟨(effective_channel_iff.1 sceneWorld u1 .alert .slack "alert-1" alertVars userPrefRec
      ⟨[.slack], true⟩ (by decide) (by decide)).mpr
      ⟨by decide, by decide, by decide, by decide⟩,
   fun h =>
     absurd ((effective_channel_iff.1 sceneWorld u1 .alert .email "alert-1" alertVars
        userPrefRec ⟨[.slack], true⟩ (by decide) (by decide)).mp h).2.2.1 (by decide)⟩

/-- C5: template resolution uses the recipient's own `(userId,
type#channel)` template when it exists and falls back to the global
`("*", type#channel)` one otherwise; when neither exists on an effectively
enabled channel, an error DeliveryRecord keyed `(id, recipient, type,
channel)` is produced while records at every other channel are unchanged;
and requests fan out independently per recipient and per batch item. -/
theorem template_fallback_and_isolation :
    (∀ (w : World) (u : String) (t : NType) (c : Channel) (s : String),
       lookupTpl w u t c = some s → resolveTemplate w u t c = some s)
    ∧ (∀ (w : World) (u : String) (t : NType) (c : Channel),
       lookupTpl w u t c = none → resolveTemplate w u t c = lookupTpl w "*" t c)
    ∧ (∀ (w : World) (id u : String) (t : NType) (vars : List (String × String))
         (c : Channel),
       effectiveEnabled w u t c = true → resolveTemplate w u t c = none →
       (⟨id, u, t, c, none, some "Template not found"⟩ : DeliveryRec)
         ∈ processRecipient w id t vars u)
    ∧ (∀ (w w' : World) (id u : String) (t : NType) (vars : List (String × String))
         (c : Channel),
       w'.prefs = w.prefs → w'.configs = w.configs →
       (∀ (ctx : String) (ty : NType) (c' : Channel), c' ≠ c →
          lookupTpl w' ctx ty c' = lookupTpl w ctx ty c') →
       (processRecipient w' id t vars u).filter (fun r => r.channel ≠ c)
         = (processRecipient w id t vars u).filter (fun r => r.channel ≠ c))
    ∧ (∀ (w : World) (req : NotifRequest) (r : DeliveryRec),
       r ∈ processRequest w req ↔
         ∃ u ∈ req.recipients, r ∈ processRecipient w req.id req.ntype req.vars u)
    ∧ (∀ (w : World) (batch : List NotifRequest) (req : NotifRequest), req ∈ batch →
       ∀ r : DeliveryRec, r ∈ processRequest w req → r ∈ processBatch w batch) := by
  refine ⟨?_, ?_, ?_, ?_, ?_, ?_⟩
  · intro w u t c s h
    rw [resolveTemplate, h]
  · intro w u t c h
    rw [resolveTemplate, h]
  · intro w id u t vars c he hn
    rw [processRecipient, List.mem_filterMap]
    refine ⟨c, mem_allChannels c, ?_⟩
    rw [deliverChannel, if_pos he, hn]
  · intro w w' id u t vars c hp hcfg htpl
    exact filterMap_filter_congr w w' id u t vars c
      (fun c' hne => deliverChannel_congr w w' c hp hcfg htpl id u t vars c' hne)
      allChannels
  · intro w req r
    rw [processRequest, List.mem_flatMap]
  · intro w batch req hreq r hr
    rw [processBatch]
    exact List.mem_flatMap.mpr ⟨req, hreq, hr⟩

/-- C5 witness: with the `alert#slack` templates removed the scenario world
produces the error record for slack; a user-specific template wins over the
global one; and with no user template resolution equals the global
lookup. -/
theorem template_fallback_and_isolation_witness :
    (⟨"alert-1", u1, .alert, .slack, none, some "Template not found"⟩ : DeliveryRec)
      ∈ processRecipient worldNoSlackTpl "alert-1" .alert alertVars u1
    ∧ resolveTemplate worldUserTpl u1 .alert .slack = some userSlackTpl
    ∧ resolveTemplate sceneWorld u1 .alert .slack = lookupTpl sceneWorld "*" .alert .slack :=
  ⟨template_fallback_and_isolation.2.2.1 worldNoSlackTpl "alert-1" u1 .alert alertVars
      .slack (by decide) (by decide),
   template_fallback_and_isolation.1 worldUserTpl u1 .alert .slack userSlackTpl (by decide),
   template_fallback_and_isolation.2.1 sceneWorld u1 .alert .slack (by decide)⟩

set_option maxRecDepth 40000 in
/-- C6 counterexample: at the report-email delivery of
`test_notification_queue_publishing`, the DeliveryRecord content is the
ledger string of test_api.py line 738 — the template's JSON re-serialised
with sorted keys — which differs from the raw substituted template string,
so record content does not equal the substituted string as-is on the email
channel. -/
theorem render_stored_content_counterexample :
    processRecipient reportWorld "report-1" .report reportVars adm
      = [⟨"report-1", adm, .report, .email, some reportStoredStr, none⟩]
    ∧ reportStoredStr ≠ render reportEmailTpl reportVars := by
  exact ⟨by decide, by decide⟩

set_option maxRecDepth 40000 in
/-- C6 amended: rendering substitutes every `\x7b\x7bname\x7d\x7d`
placeholder with its variable by plain string replacement and leaves
unresolved placeholders verbatim; the DeliveryRecord content equals the
substituted raw string as-is for the slack and in_app channels, while for
the email channel the substituted JSON object is re-serialised with keys
sorted and whitespace dropped (the ledger string of test line 738) rather
than stored as the raw substituted string. -/
theorem render_and_stored_content :
    (∀ r : String, channelContent .slack r = r)
    ∧ (∀ r : String, channelContent .in_app r = r)
    ∧ render alertSlackTpl alertVars
        = "Alert: web-server-01 is critical in production with message High CPU usage detected"
    ∧ render "Hi \x7b\x7bname\x7d\x7d!" [("other", "x")] = "Hi \x7b\x7bname\x7d\x7d!"
    ∧ channelContent .email (render reportEmailTpl reportVars) = reportStoredStr
    ∧ channelContent .slack (render alertSlackTpl alertVars)
        = render alertSlackTpl alertVars := by
  exact ⟨fun r => rfl, fun r => rfl, by decide, by decide, by decide, rfl⟩

end NotifSvc
